import Mathlib

/-!
Verification of `cirq/google/xmon_gates.py`: the codec between in-memory
xmon gate operations and the google API proto wire format, the half-turn
canonicalization, and the gate catalog's equality/hash/matrix/inverse rules.

Numbers are modelled by `ℚ` (Python floats with exact arithmetic); the
Python `%` operator on the positive modulus 2 is `pymod`.  Python `hash`
values of class/parameter tuples are modelled by the tuples themselves
(`HashValue`): equal tuples hash equal in Python.
-/

namespace XmonGates

/-- A gate parameter: a concrete number or a deferred `Symbol` reference
(`cirq.value.Symbol`, identified by its name). -/
inductive ParamValue where
  | const (x : ℚ)
  | symbol (name : String)
  deriving DecidableEq, Repr

/-- The `isinstance(p, Symbol)` test used throughout the source. -/
def ParamValue.isSymbol : ParamValue → Bool
  | .const _ => false
  | .symbol _ => true

/-- Python `==` between two parameter values: numbers compare by value,
symbols by name, and a symbol never equals a number. -/
def paramEq (p q : ParamValue) : Bool := decide (p = q)

/-- Python `==` between a parameter value and a number literal (as in
`self.axis_half_turns == 0`): false on a symbol. -/
def paramEqNum (p : ParamValue) (x : ℚ) : Bool :=
  match p with
  | .const y => decide (y = x)
  | .symbol _ => false

/-- Python `x % m` for a positive modulus `m`: `x - m * floor(x / m)`. -/
def pymod (x m : ℚ) : ℚ := x - m * (⌊x / m⌋ : ℚ)

/-- The numeric core of `_canonicalize_half_turns`: reduce mod 2 into
`[0, 2)`, then shift by `-2` when the result exceeds 1. -/
def canonQ (h : ℚ) : ℚ :=
  if pymod h 2 > 1 then pymod h 2 - 2 else pymod h 2

/-- `_canonicalize_half_turns` (xmon_gates.py lines 430-438): a `Symbol`
passes through unchanged; a number is canonicalized by `canonQ`. -/
def _canonicalize_half_turns : ParamValue → ParamValue
  | .symbol s => .symbol s
  | .const h => .const (canonQ h)

/-- Modelled from the spec: `QubitLocator` (`cirq.google.xmon_qubit.XmonQubit`,
not under src/) is an opaque comparable identity; we use its row/col pair.
Its wire codec is external and assumed mutually inverse (spec section 6), so the
wire form is the qubit itself and encode/decode are the identity. -/
structure XmonQubit where
  row : ℤ
  col : ℤ
  deriving DecidableEq, Repr

/-- The error taxonomy of the module (the source raises `ValueError` with
distinct messages; the spec names the cases). -/
inductive Err where
  | malformedParameter
  | unknownOperation
  | arityError
  | emptyMeasurement
  | noMatrixAvailable
  | noInverseAvailable
  deriving DecidableEq, Repr

/-- The wire form of `operations_pb2.ParameterizedFloat`: a oneof holding a
raw numeric value, a named-parameter key, or nothing. -/
inductive ParameterizedFloat where
  | raw (x : ℚ)
  | parameter_key (s : String)
  | unset
  deriving DecidableEq, Repr

/-- `XmonGate.parameterized_value_from_proto` (lines 64-74): dispatch on
which oneof field is set; neither set is an error. -/
def parameterized_value_from_proto :
    ParameterizedFloat → Except Err ParamValue
  | .raw x => .ok (.const x)
  | .parameter_key s => .ok (.symbol s)
  | .unset => .error .malformedParameter

/-- `XmonGate.parameterized_value_to_proto` (lines 76-87): a `Symbol` writes
the named field, a number writes the raw field. -/
def parameterized_value_to_proto : ParamValue → ParameterizedFloat
  | .symbol s => .parameter_key s
  | .const x => .raw x

/-- The wire form of `operations_pb2.Operation`: a oneof over the four gate
payloads, or nothing set. -/
inductive WireOperation where
  | exp_w (target : XmonQubit)
      (axis_half_turns half_turns : ParameterizedFloat)
  | exp_z (target : XmonQubit) (half_turns : ParameterizedFloat)
  | exp_11 (target1 target2 : XmonQubit) (half_turns : ParameterizedFloat)
  | measurement (key : String) (targets : List XmonQubit)
  | unset
  deriving DecidableEq, Repr

/-- `XmonMeasurementGate` (lines 90-107): carries only the measurement key;
operands are supplied when the operation is formed. -/
structure XmonMeasurementGate where
  key : String
  deriving DecidableEq, Repr

/-- `Exp11Gate` state after `__init__` (lines 127-130): the half-turn
parameter, canonicalized. -/
structure Exp11Gate where
  half_turns : ParamValue
  deriving DecidableEq, Repr

/-- `Exp11Gate.__init__` (lines 127-130). -/
def Exp11Gate.init (half_turns : ParamValue) : Exp11Gate :=
  ⟨_canonicalize_half_turns half_turns⟩

/-- `ExpWGate` state after `__init__`: both parameters, canonicalized. -/
structure ExpWGate where
  half_turns : ParamValue
  axis_half_turns : ParamValue
  deriving DecidableEq, Repr

/-- `ExpWGate.__init__` (lines 213-226): canonicalize both parameters; when
both are numbers and the axis is outside `[0, 1)`, negate the rotation and
shift the axis by one (re-canonicalizing each). -/
def ExpWGate.init (half_turns axis_half_turns : ParamValue) : ExpWGate :=
  let h := _canonicalize_half_turns half_turns
  let a := _canonicalize_half_turns axis_half_turns
  match h, a with
  | .const hc, .const ac =>
      if ¬ (0 ≤ ac ∧ ac < 1) then
        ⟨_canonicalize_half_turns (.const (-hc)),
         _canonicalize_half_turns (.const (ac + 1))⟩
      else ⟨.const hc, .const ac⟩
  | h, a => ⟨h, a⟩

/-- `ExpZGate` state after `__init__` (lines 343-346). -/
structure ExpZGate where
  half_turns : ParamValue
  deriving DecidableEq, Repr

/-- `ExpZGate.__init__` (lines 343-346). -/
def ExpZGate.init (half_turns : ParamValue) : ExpZGate :=
  ⟨_canonicalize_half_turns half_turns⟩

/-- Modelled from the spec: the framework's pure X-axis rotation variant
(`ops.RotXGate`, outside this module), carrying a half-turn parameter
canonicalized the same way; spec section 4.3 requires the cross-variant equality
to hold for every constant half-turn value. -/
structure RotXGate where
  half_turns : ParamValue
  deriving DecidableEq, Repr

/-- Modelled from the spec: construction of the pure X-axis variant
canonicalizes its half-turn parameter. -/
def RotXGate.init (half_turns : ParamValue) : RotXGate :=
  ⟨_canonicalize_half_turns half_turns⟩

/-- Modelled from the spec: the framework's pure Y-axis rotation variant
(`ops.RotYGate`, outside this module). -/
structure RotYGate where
  half_turns : ParamValue
  deriving DecidableEq, Repr

/-- Modelled from the spec: construction of the pure Y-axis variant
canonicalizes its half-turn parameter. -/
def RotYGate.init (half_turns : ParamValue) : RotYGate :=
  ⟨_canonicalize_half_turns half_turns⟩

/-- Modelled from the spec: the framework's generic controlled-phase gate
(`ops.Rot11Gate`, outside this module), referenced by `Exp11Gate` for its
matrix, equality and hash. -/
structure Rot11Gate where
  half_turns : ParamValue
  deriving DecidableEq, Repr

/-- The class tags that appear in the hash tuples of the source. -/
inductive GateClassTag where
  | rotX
  | rotY
  | rot11
  | expW
  | expZ
  deriving DecidableEq, Repr

/-- A Python `hash((Class, params...))` tuple, modelled as the tuple itself:
equal tuples hash equal. -/
inductive HashValue where
  | pair (tag : GateClassTag) (p : ParamValue)
  | triple (tag : GateClassTag) (p q : ParamValue)
  deriving DecidableEq, Repr

/-- `Exp11Gate.__eq__` against `ops.Rot11Gate` (lines 177-180): compare the
half-turn parameters. -/
def Exp11Gate.eqRot11 (g : Exp11Gate) (o : Rot11Gate) : Bool :=
  paramEq g.half_turns o.half_turns

/-- `Exp11Gate.__eq__` against another `Exp11Gate` (lines 177-180). -/
def Exp11Gate.eqExp11 (g o : Exp11Gate) : Bool :=
  paramEq g.half_turns o.half_turns

/-- `Exp11Gate.__hash__` (lines 185-186): `hash((ops.Rot11Gate,
self.half_turns))`. -/
def Exp11Gate.hash (g : Exp11Gate) : HashValue :=
  .pair .rot11 g.half_turns

/-- Modelled from the spec: the external `ops.Rot11Gate` hashes on its own
class tag and its half-turn parameter. -/
def Rot11Gate.hash (r : Rot11Gate) : HashValue :=
  .pair .rot11 r.half_turns

/-- `ExpWGate.__eq__` against `ops.RotXGate` (lines 305-308): the axis must
equal 0 and the half-turns must agree. -/
def ExpWGate.eqRotX (g : ExpWGate) (o : RotXGate) : Bool :=
  paramEqNum g.axis_half_turns 0 && paramEq g.half_turns o.half_turns

/-- `ExpWGate.__eq__` against `ops.RotYGate` (lines 309-311): the axis must
equal 0.5 and the half-turns must agree. -/
def ExpWGate.eqRotY (g : ExpWGate) (o : RotYGate) : Bool :=
  paramEqNum g.axis_half_turns (1/2) && paramEq g.half_turns o.half_turns

/-- `ExpWGate.__eq__` against another `ExpWGate` (lines 312-314). -/
def ExpWGate.eqExpW (g o : ExpWGate) : Bool :=
  paramEq g.half_turns o.half_turns &&
    paramEq g.axis_half_turns o.axis_half_turns

/-- `ExpWGate.__hash__` (lines 320-325): degenerate axes hash as the pure
X / Y rotation classes. -/
def ExpWGate.hash (g : ExpWGate) : HashValue :=
  if paramEqNum g.axis_half_turns 0 then .pair .rotX g.half_turns
  else if paramEqNum g.axis_half_turns (1/2) then .pair .rotY g.half_turns
  else .triple .expW g.half_turns g.axis_half_turns

/-- Modelled from the spec: the external `ops.RotXGate` hashes on its class
tag and its half-turn parameter. -/
def RotXGate.hash (r : RotXGate) : HashValue :=
  .pair .rotX r.half_turns

/-- Modelled from the spec: the external `ops.RotYGate` hashes on its class
tag and its half-turn parameter. -/
def RotYGate.hash (r : RotYGate) : HashValue :=
  .pair .rotY r.half_turns

/-- Modelled from the spec: `ops.RotZGate(half_turns=h).matrix()` (outside
this module) is the diagonal matrix `diag(1, exp(i*pi*h))` (spec section 4.3). -/
noncomputable def RotZGate.matrix (h : ℚ) : Matrix (Fin 2) (Fin 2) ℂ :=
  !![1, 0; 0, Complex.exp (Real.pi * Complex.I * (h : ℂ))]

/-- Modelled from the spec: `ops.Rot11Gate(half_turns=h).matrix()` (outside
this module) is the identity except that the doubly-excited amplitude is
multiplied by `exp(i*pi*h)` (spec section 4.3). -/
noncomputable def Rot11Gate.matrix (h : ℚ) : Matrix (Fin 4) (Fin 4) ℂ :=
  Matrix.diagonal ![1, 1, 1, Complex.exp (Real.pi * Complex.I * (h : ℂ))]

/-- `ExpWGate.has_matrix` (lines 256-258): both parameters must be numbers. -/
def ExpWGate.has_matrix (g : ExpWGate) : Bool :=
  !g.half_turns.isSymbol && !g.axis_half_turns.isSymbol

/-- `ExpWGate.matrix` (lines 260-266): fails unless both parameters are
numbers; otherwise `P * R * conj(P)` with `P` the Z-rotation matrix of the
axis and `R = [[1+c, 1-c], [1-c, 1+c]] / 2`, `c = exp(i*pi*half_turns)`. -/
noncomputable def ExpWGate.matrix (g : ExpWGate) :
    Except Err (Matrix (Fin 2) (Fin 2) ℂ) :=
  match g.half_turns, g.axis_half_turns with
  | .const h, .const a =>
      let phase := RotZGate.matrix a
      let c : ℂ := Complex.exp (Complex.I * Real.pi * (h : ℂ))
      let rot : Matrix (Fin 2) (Fin 2) ℂ :=
        (2 : ℂ)⁻¹ • !![1 + c, 1 - c; 1 - c, 1 + c]
      .ok (phase * rot * phase.map (starRingEnd ℂ))
  | _, _ => .error .noMatrixAvailable

/-- `ExpWGate.has_inverse` (lines 247-248): only the rotation amount must be
a number; the axis may stay symbolic. -/
def ExpWGate.has_inverse (g : ExpWGate) : Bool :=
  !g.half_turns.isSymbol

/-- `ExpWGate.inverse` (lines 250-254): fails on a symbolic rotation amount;
otherwise rebuild through the constructor with the negated rotation and the
same axis. -/
def ExpWGate.inverse (g : ExpWGate) : Except Err ExpWGate :=
  match g.half_turns with
  | .symbol _ => .error .noInverseAvailable
  | .const x => .ok (ExpWGate.init (.const (-x)) g.axis_half_turns)

/-- `ExpZGate.has_matrix` (lines 380-381). -/
def ExpZGate.has_matrix (g : ExpZGate) : Bool :=
  !g.half_turns.isSymbol

/-- `ExpZGate.matrix` (lines 383-386): fails on a symbolic parameter,
otherwise the framework's Z-rotation matrix. -/
noncomputable def ExpZGate.matrix (g : ExpZGate) :
    Except Err (Matrix (Fin 2) (Fin 2) ℂ) :=
  match g.half_turns with
  | .const h => .ok (RotZGate.matrix h)
  | .symbol _ => .error .noMatrixAvailable

/-- `Exp11Gate.has_matrix` (lines 151-152). -/
def Exp11Gate.has_matrix (g : Exp11Gate) : Bool :=
  !g.half_turns.isSymbol

/-- `Exp11Gate.matrix` (lines 154-157): fails on a symbolic parameter,
otherwise the framework's controlled-phase matrix. -/
noncomputable def Exp11Gate.matrix (g : Exp11Gate) :
    Except Err (Matrix (Fin 4) (Fin 4) ℂ) :=
  match g.half_turns with
  | .const h => .ok (Rot11Gate.matrix h)
  | .symbol _ => .error .noMatrixAvailable

/-- The in-memory gate of an operation: one of the four catalog variants. -/
inductive Gate where
  | expW (g : ExpWGate)
  | expZ (g : ExpZGate)
  | exp11 (g : Exp11Gate)
  | meas (g : XmonMeasurementGate)
  deriving DecidableEq, Repr

/-- An operation: a gate applied to a list of qubit operands (`gate.on(*qubits)`). -/
structure Operation where
  gate : Gate
  qubits : List XmonQubit
  deriving DecidableEq, Repr

/-- `ExpWGate.to_proto` (lines 228-238): exactly one operand; writes the
axis and the rotation amount through the parameter codec. -/
def ExpWGate.to_proto (g : ExpWGate) (qubits : List XmonQubit) :
    Except Err WireOperation :=
  match qubits with
  | [q] => .ok (.exp_w q (parameterized_value_to_proto g.axis_half_turns)
      (parameterized_value_to_proto g.half_turns))
  | _ => .error .arityError

/-- `ExpZGate.to_proto` (lines 393-401): exactly one operand. -/
def ExpZGate.to_proto (g : ExpZGate) (qubits : List XmonQubit) :
    Except Err WireOperation :=
  match qubits with
  | [q] => .ok (.exp_z q (parameterized_value_to_proto g.half_turns))
  | _ => .error .arityError

/-- `Exp11Gate.to_proto` (lines 135-144): exactly two operands. -/
def Exp11Gate.to_proto (g : Exp11Gate) (qubits : List XmonQubit) :
    Except Err WireOperation :=
  match qubits with
  | [p, q] => .ok (.exp_11 p q (parameterized_value_to_proto g.half_turns))
  | _ => .error .arityError

/-- `XmonMeasurementGate.to_proto` (lines 96-104): raises on zero operands,
otherwise writes the key and the operand list in order. -/
def XmonMeasurementGate.to_proto (g : XmonMeasurementGate)
    (qubits : List XmonQubit) : Except Err WireOperation :=
  match qubits with
  | [] => .error .emptyMeasurement
  | qs => .ok (.measurement g.key qs)

/-- The encode direction of the dispatcher (spec section 4.4): delegate to the
matching variant's `to_proto`, which owns the arity check. -/
def encodeOperation (op : Operation) : Except Err WireOperation :=
  match op.gate with
  | .expW g => g.to_proto op.qubits
  | .expZ g => g.to_proto op.qubits
  | .exp11 g => g.to_proto op.qubits
  | .meas g => g.to_proto op.qubits

/-- `XmonGate.from_proto` (lines 35-62): dispatch on the populated oneof
case, decode each parameter and qubit, and rebuild the operation through the
variant's constructor. -/
def from_proto (w : WireOperation) : Except Err Operation :=
  match w with
  | .exp_w target axis half =>
      match parameterized_value_from_proto half with
      | .error e => .error e
      | .ok h =>
          match parameterized_value_from_proto axis with
          | .error e => .error e
          | .ok a => .ok ⟨.expW (ExpWGate.init h a), [target]⟩
  | .exp_z target half =>
      match parameterized_value_from_proto half with
      | .error e => .error e
      | .ok h => .ok ⟨.expZ (ExpZGate.init h), [target]⟩
  | .exp_11 t1 t2 half =>
      match parameterized_value_from_proto half with
      | .error e => .error e
      | .ok h => .ok ⟨.exp11 (Exp11Gate.init h), [t1, t2]⟩
  | .measurement key targets => .ok ⟨.meas ⟨key⟩, targets⟩
  | .unset => .error .unknownOperation

/-! ### Arithmetic facts about the canonicalization -/

theorem pymod_two_nonneg (x : ℚ) : 0 ≤ pymod x 2 := by
  have h := Int.floor_le (x / 2)
  have h2 : (⌊x / 2⌋ : ℚ) * 2 ≤ x := by nlinarith
  unfold pymod; linarith

theorem pymod_two_lt (x : ℚ) : pymod x 2 < 2 := by
  have h := Int.lt_floor_add_one (x / 2)
  have h2 : x < (⌊x / 2⌋ : ℚ) * 2 + 2 := by nlinarith
  unfold pymod; linarith

theorem canonQ_neg_lt (h : ℚ) : -1 < canonQ h := by
  have h1 := pymod_two_nonneg h
  have h2 := pymod_two_lt h
  unfold canonQ
  split <;> linarith

theorem canonQ_le_one (h : ℚ) : canonQ h ≤ 1 := by
  have h1 := pymod_two_nonneg h
  have h2 := pymod_two_lt h
  unfold canonQ
  split <;> linarith

/-- Values already in `(-1, 1]` are fixed points of the numeric
canonicalization. -/
theorem canonQ_fix {r : ℚ} (h1 : -1 < r) (h2 : r ≤ 1) : canonQ r = r := by
  rcases le_or_lt 0 r with hr | hr
  · have hfl : ⌊r / 2⌋ = 0 := by
      rw [Int.floor_eq_zero_iff, Set.mem_Ico]
      constructor
      · positivity
      · linarith
    simp only [canonQ, pymod, hfl]
    norm_num
    linarith
  · have hfl : ⌊r / 2⌋ = -1 := by
      rw [Int.floor_eq_iff]
      constructor
      · push_cast; linarith
      · push_cast; linarith
    have hgt : 1 < pymod r 2 := by
      simp only [pymod, hfl]; push_cast; linarith
    simp only [canonQ, pymod, hfl] at *
    rw [if_pos hgt]
    push_cast
    ring

/-- Shifting by an even integer does not change the Python remainder. -/
theorem pymod_two_shift (r : ℚ) (k : ℤ) : pymod (r + 2 * k) 2 = pymod r 2 := by
  have hdiv : (r + 2 * k) / 2 = r / 2 + k := by ring
  have hfl : ⌊(r + 2 * k) / 2⌋ = ⌊r / 2⌋ + k := by
    rw [hdiv, Int.floor_add_int]
  simp only [pymod, hfl]
  push_cast
  ring

/-- The canonicalization sends `r + 2k` to the unique representative of its
class in `(-1, 1]`. -/
theorem canonQ_eq_of {h r : ℚ} (k : ℤ) (hk : h = r + 2 * k)
    (h1 : -1 < r) (h2 : r ≤ 1) : canonQ h = r := by
  have hmod : pymod h 2 = pymod r 2 := by rw [hk, pymod_two_shift]
  have : canonQ h = canonQ r := by unfold canonQ; rw [hmod]
  rw [this, canonQ_fix h1 h2]

theorem canonQ_idem (h : ℚ) : canonQ (canonQ h) = canonQ h :=
  canonQ_fix (canonQ_neg_lt h) (canonQ_le_one h)

theorem canon_const (h : ℚ) :
    _canonicalize_half_turns (.const h) = .const (canonQ h) := rfl

theorem canon_symbol (s : String) :
    _canonicalize_half_turns (.symbol s) = .symbol s := rfl

theorem canon_canon (p : ParamValue) :
    _canonicalize_half_turns (_canonicalize_half_turns p) =
      _canonicalize_half_turns p := by
  cases p with
  | symbol s => rfl
  | const h => simp only [canon_const, canonQ_idem]

/-! ### The `ExpWGate` constructor -/

theorem ExpWGate.init_const_const (h a : ℚ) :
    ExpWGate.init (.const h) (.const a) =
      if ¬ (0 ≤ canonQ a ∧ canonQ a < 1) then
        ⟨.const (canonQ (-(canonQ h))), .const (canonQ (canonQ a + 1))⟩
      else ⟨.const (canonQ h), .const (canonQ a)⟩ := rfl

/-- The axis produced when the sign-flip branch fires lies in `[0, 1)`. -/
theorem axis_after_flip {a : ℚ} (h1 : -1 < a) (h2 : a ≤ 1)
    (h3 : ¬ (0 ≤ a ∧ a < 1)) : 0 ≤ canonQ (a + 1) ∧ canonQ (a + 1) < 1 := by
  push_neg at h3
  rcases lt_or_le a 0 with ha | ha
  · have hfix : canonQ (a + 1) = a + 1 := canonQ_fix (by linarith) (by linarith)
    rw [hfix]
    constructor <;> linarith
  · have ha1 : a = 1 := le_antisymm h2 (h3 ha)
    have : canonQ (a + 1) = 0 := by
      apply canonQ_eq_of 1 <;> first | (rw [ha1]; push_cast; ring) | norm_num
    rw [this]
    norm_num

/-- The canonical-axis invariant of `ExpWGate.__init__`: with two numeric
parameters, the stored axis is a number in `[0, 1)`. -/
theorem ExpWGate.init_axis_mem (h a : ℚ) :
    ∃ x : ℚ, (ExpWGate.init (.const h) (.const a)).axis_half_turns = .const x ∧
      0 ≤ x ∧ x < 1 := by
  rw [ExpWGate.init_const_const]
  by_cases hc : 0 ≤ canonQ a ∧ canonQ a < 1
  · rw [if_neg (by simpa using hc)]
    exact ⟨canonQ a, rfl, hc⟩
  · rw [if_pos hc]
    refine ⟨canonQ (canonQ a + 1), rfl, ?_⟩
    exact axis_after_flip (canonQ_neg_lt a) (canonQ_le_one a) hc

theorem ExpWGate.init_half_symbol (s : String) (a : ParamValue) :
    ExpWGate.init (.symbol s) a =
      ⟨.symbol s, _canonicalize_half_turns a⟩ := by
  cases a <;> rfl

theorem ExpWGate.init_axis_symbol (h : ParamValue) (s : String) :
    ExpWGate.init h (.symbol s) =
      ⟨_canonicalize_half_turns h, .symbol s⟩ := by
  cases h <;> rfl

/-- Rebuilding an `ExpWGate` from its stored parameters reproduces it:
the constructor is idempotent. -/
theorem expW_init_idem (h a : ParamValue) :
    ExpWGate.init (ExpWGate.init h a).half_turns
      (ExpWGate.init h a).axis_half_turns = ExpWGate.init h a := by
  cases h with
  | symbol s =>
      rw [ExpWGate.init_half_symbol]
      cases a with
      | symbol t => rfl
      | const ac =>
          rw [ExpWGate.init_half_symbol]
          simp only [canon_const, canonQ_idem]
  | const hc =>
      cases a with
      | symbol t =>
          rw [ExpWGate.init_axis_symbol, canon_const,
            ExpWGate.init_axis_symbol, canon_const, canonQ_idem]
      | const ac =>
          rw [ExpWGate.init_const_const]
          by_cases hcond : 0 ≤ canonQ ac ∧ canonQ ac < 1
          · rw [if_neg (by simpa using hcond)]
            rw [ExpWGate.init_const_const]
            have hfixh : canonQ (canonQ hc) = canonQ hc := canonQ_idem hc
            have hfixa : canonQ (canonQ ac) = canonQ ac := canonQ_idem ac
            rw [hfixh, hfixa, if_neg (by simpa using hcond)]
          · rw [if_pos hcond]
            rw [ExpWGate.init_const_const]
            have hmem := axis_after_flip (canonQ_neg_lt ac)
              (canonQ_le_one ac) hcond
            have hfixa : canonQ (canonQ (canonQ ac + 1)) = canonQ (canonQ ac + 1) :=
              canonQ_idem _
            have hfixh : canonQ (canonQ (-(canonQ hc))) = canonQ (-(canonQ hc)) :=
              canonQ_idem _
            rw [hfixh, hfixa, if_neg (by simpa [hfixa] using hmem)]

theorem expZ_init_idem (h : ParamValue) :
    ExpZGate.init (ExpZGate.init h).half_turns = ExpZGate.init h := by
  simp only [ExpZGate.init, canon_canon]

theorem exp11_init_idem (h : ParamValue) :
    Exp11Gate.init (Exp11Gate.init h).half_turns = Exp11Gate.init h := by
  simp only [Exp11Gate.init, canon_canon]

/-- The parameter wire codec round-trips. -/
theorem param_roundtrip (p : ParamValue) :
    parameterized_value_from_proto (parameterized_value_to_proto p) =
      .ok p := by
  cases p <;> rfl

/-! ### The claims -/

/-- Claim C4: `_canonicalize_half_turns` leaves a symbolic reference
unchanged; on a number `h` it reduces `h` mod 2 into `[0, 2)`, subtracts 2
when that remainder exceeds 1, and the returned value always lies in the
canonical range `(-1, 1]`. -/
theorem claim_C4_canonicalize :
    (∀ s, _canonicalize_half_turns (.symbol s) = .symbol s) ∧
    (∀ h : ℚ, 0 ≤ pymod h 2 ∧ pymod h 2 < 2 ∧
      _canonicalize_half_turns (.const h) =
        .const (if pymod h 2 > 1 then pymod h 2 - 2 else pymod h 2) ∧
      -1 < canonQ h ∧ canonQ h ≤ 1) :=
  ⟨fun _ => rfl, fun h =>
    ⟨pymod_two_nonneg h, pymod_two_lt h, rfl, canonQ_neg_lt h,
      canonQ_le_one h⟩⟩

/-- Claim C5: `_canonicalize_half_turns` is idempotent on every input,
constant or symbolic. -/
theorem claim_C5_idempotent (x : ParamValue) :
    _canonicalize_half_turns (_canonicalize_half_turns x) =
      _canonicalize_half_turns x :=
  canon_canon x

/-- Claim C8: decoding a wire parameter maps a set raw field to a constant,
a set named field to a symbolic reference, and fails with
`malformedParameter` when neither oneof field is set. -/
theorem claim_C8_param_decode :
    (∀ x : ℚ, parameterized_value_from_proto (.raw x) = .ok (.const x)) ∧
    (∀ s, parameterized_value_from_proto (.parameter_key s) =
      .ok (.symbol s)) ∧
    parameterized_value_from_proto .unset = .error .malformedParameter :=
  ⟨fun _ => rfl, fun _ => rfl, rfl⟩

/-- Claim C2: for numeric parameters the `ExpWGate` constructor leaves the
stored axis in `[0, 1)`, and it does so by the sign-flip identity: when the
canonicalized axis falls outside `[0, 1)` it stores the re-canonicalized
negated rotation and the re-canonicalized axis plus one. -/
theorem claim_C2_axis_invariant :
    (∀ h a : ℚ, ∃ x : ℚ,
      (ExpWGate.init (.const h) (.const a)).axis_half_turns = .const x ∧
        0 ≤ x ∧ x < 1) ∧
    (∀ h a : ℚ, ExpWGate.init (.const h) (.const a) =
      if ¬ (0 ≤ canonQ a ∧ canonQ a < 1) then
        ⟨.const (canonQ (-(canonQ h))), .const (canonQ (canonQ a + 1))⟩
      else ⟨.const (canonQ h), .const (canonQ a)⟩) :=
  ⟨ExpWGate.init_axis_mem, ExpWGate.init_const_const⟩

/-- Claim C6 counterexample: the empty-operand check for measurements is not
a construction-time failure.  Decoding a wire measurement with an empty
target list happily constructs the empty-operand operation, and the failure
only occurs later, when `to_proto` encodes it. -/
theorem claim_C6_counterexample :
    from_proto (.measurement "m" []) = .ok ⟨.meas ⟨"m"⟩, []⟩ ∧
    XmonMeasurementGate.to_proto ⟨"m"⟩ [] = .error .emptyMeasurement :=
  ⟨rfl, rfl⟩

/-- Claim C6 (amended): encoding a measurement with zero qubit operands
fails with `emptyMeasurement`; the check lives in `to_proto`, not in the
constructor. -/
theorem claim_C6_encode_check (key : String) :
    XmonMeasurementGate.to_proto ⟨key⟩ [] = .error .emptyMeasurement ∧
    encodeOperation ⟨.meas ⟨key⟩, []⟩ = .error .emptyMeasurement :=
  ⟨rfl, rfl⟩

/-- Claim C6 (amended) witness at a concrete key. -/
theorem claim_C6_encode_check_witness :
    XmonMeasurementGate.to_proto ⟨"m"⟩ [] = .error .emptyMeasurement ∧
    encodeOperation ⟨.meas ⟨"m"⟩, []⟩ = .error .emptyMeasurement :=
  claim_C6_encode_check "m"

/-- Claim C9: `ExpWGate.has_inverse` holds exactly when the rotation amount
is a number, whatever the axis; the inverse is then rebuilt through the
constructor from the negated rotation and the same axis, and it fails when
the rotation amount is symbolic. -/
theorem claim_C9_inverse :
    (∀ g : ExpWGate,
      (g.has_inverse = true ↔ g.half_turns.isSymbol = false)) ∧
    (∀ (x : ℚ) (a : ParamValue),
      ExpWGate.inverse ⟨.const x, a⟩ =
        .ok (ExpWGate.init (.const (-x)) a)) ∧
    (∀ (s : String) (a : ParamValue),
      ExpWGate.inverse ⟨.symbol s, a⟩ = .error .noInverseAvailable) := by
  refine ⟨fun g => ?_, fun _ _ => rfl, fun _ _ => rfl⟩
  cases hp : g.half_turns <;>
    simp [ExpWGate.has_inverse, ParamValue.isSymbol, hp]

/-- Claim C10: an `Exp11Gate` compares equal to the framework's generic
controlled-phase gate whenever the stored half-turn parameters agree, and
its hash is the `(Rot11Gate, half_turns)` tuple, identical to that gate's
own hash. -/
theorem claim_C10_exp11_rot11 :
    (∀ p : ParamValue, Exp11Gate.eqRot11 ⟨p⟩ ⟨p⟩ = true) ∧
    (∀ g : Exp11Gate, Exp11Gate.hash g = .pair .rot11 g.half_turns) ∧
    (∀ p : ParamValue, Exp11Gate.hash ⟨p⟩ = Rot11Gate.hash ⟨p⟩) := by
  refine ⟨fun p => ?_, fun _ => rfl, fun _ => rfl⟩
  simp [Exp11Gate.eqRot11, paramEq]

/-- Claim C3: for every constant `h`, the plane rotation built with axis 0
compares and hashes equal to the framework's pure X-axis rotation with the
same `h`, and the one built with axis 0.5 compares and hashes equal to the
pure Y-axis rotation with the same `h`. -/
theorem claim_C3_degenerate_axes (h : ℚ) :
    ExpWGate.eqRotX (ExpWGate.init (.const h) (.const 0))
        (RotXGate.init (.const h)) = true ∧
    (ExpWGate.init (.const h) (.const 0)).hash =
      (RotXGate.init (.const h)).hash ∧
    ExpWGate.eqRotY (ExpWGate.init (.const h) (.const (1/2)))
        (RotYGate.init (.const h)) = true ∧
    (ExpWGate.init (.const h) (.const (1/2))).hash =
      (RotYGate.init (.const h)).hash := by
  have h0 : canonQ 0 = 0 := canonQ_fix (by norm_num) (by norm_num)
  have hhalf : canonQ (1/2) = 1/2 := canonQ_fix (by norm_num) (by norm_num)
  have e0 : ExpWGate.init (.const h) (.const 0) =
      ⟨.const (canonQ h), .const 0⟩ := by
    rw [ExpWGate.init_const_const, h0]
    norm_num
  have ehalf : ExpWGate.init (.const h) (.const (1/2)) =
      ⟨.const (canonQ h), .const (1/2)⟩ := by
    rw [ExpWGate.init_const_const, hhalf]
    norm_num
  refine ⟨?_, ?_, ?_, ?_⟩
  · rw [e0]
    simp [ExpWGate.eqRotX, paramEqNum, paramEq, RotXGate.init, canon_const]
  · rw [e0]
    simp [ExpWGate.hash, paramEqNum, RotXGate.init, RotXGate.hash,
      canon_const]
  · rw [ehalf]
    simp [ExpWGate.eqRotY, paramEqNum, paramEq, RotYGate.init, canon_const]
  · rw [ehalf]
    simp [ExpWGate.hash, paramEqNum, RotYGate.init, RotYGate.hash,
      canon_const]

/-- Claim C7: for each matrix-bearing variant, `has_matrix` holds and
`matrix` succeeds exactly when every parameter is a number, and `matrix`
fails with `noMatrixAvailable` exactly when some parameter is symbolic. -/
theorem claim_C7_matrix_gating :
    (∀ g : ExpZGate,
      (g.has_matrix = true ↔ g.half_turns.isSymbol = false) ∧
      ((∃ m, g.matrix = .ok m) ↔ g.half_turns.isSymbol = false) ∧
      (g.matrix = .error .noMatrixAvailable ↔
        g.half_turns.isSymbol = true)) ∧
    (∀ g : ExpWGate,
      (g.has_matrix = true ↔
        g.half_turns.isSymbol = false ∧ g.axis_half_turns.isSymbol = false) ∧
      ((∃ m, g.matrix = .ok m) ↔
        g.half_turns.isSymbol = false ∧ g.axis_half_turns.isSymbol = false) ∧
      (g.matrix = .error .noMatrixAvailable ↔
        ¬ (g.half_turns.isSymbol = false ∧
            g.axis_half_turns.isSymbol = false))) ∧
    (∀ g : Exp11Gate,
      (g.has_matrix = true ↔ g.half_turns.isSymbol = false) ∧
      ((∃ m, g.matrix = .ok m) ↔ g.half_turns.isSymbol = false) ∧
      (g.matrix = .error .noMatrixAvailable ↔
        g.half_turns.isSymbol = true)) := by
  refine ⟨fun g => ?_, fun g => ?_, fun g => ?_⟩
  · obtain ⟨p⟩ := g
    cases p <;>
      simp [ExpZGate.has_matrix, ExpZGate.matrix, ParamValue.isSymbol]
  · obtain ⟨p, q⟩ := g
    cases p <;> cases q <;>
      simp [ExpWGate.has_matrix, ExpWGate.matrix, ParamValue.isSymbol]
  · obtain ⟨p⟩ := g
    cases p <;>
      simp [Exp11Gate.has_matrix, Exp11Gate.matrix, ParamValue.isSymbol]

/-- Claim C1: encoding any valid operation (a catalog gate, built through
its constructor, applied to the right number of qubit operands) and
decoding the resulting wire message reproduces the operation exactly. -/
theorem claim_C1_roundtrip :
    (∀ (h a : ParamValue) (q : XmonQubit),
      (encodeOperation ⟨.expW (ExpWGate.init h a), [q]⟩).bind from_proto =
        .ok ⟨.expW (ExpWGate.init h a), [q]⟩) ∧
    (∀ (h : ParamValue) (q : XmonQubit),
      (encodeOperation ⟨.expZ (ExpZGate.init h), [q]⟩).bind from_proto =
        .ok ⟨.expZ (ExpZGate.init h), [q]⟩) ∧
    (∀ (h : ParamValue) (q1 q2 : XmonQubit),
      (encodeOperation ⟨.exp11 (Exp11Gate.init h), [q1, q2]⟩).bind
          from_proto = .ok ⟨.exp11 (Exp11Gate.init h), [q1, q2]⟩) ∧
    (∀ (key : String) (q : XmonQubit) (qs : List XmonQubit),
      (encodeOperation ⟨.meas ⟨key⟩, q :: qs⟩).bind from_proto =
        .ok ⟨.meas ⟨key⟩, q :: qs⟩) := by
  refine ⟨fun h a q => ?_, fun h q => ?_, fun h q1 q2 => ?_,
    fun key q qs => ?_⟩
  · show from_proto (.exp_w q
      (parameterized_value_to_proto (ExpWGate.init h a).axis_half_turns)
      (parameterized_value_to_proto (ExpWGate.init h a).half_turns)) = _
    rw [from_proto, param_roundtrip, param_roundtrip]
    simp only [expW_init_idem]
  · show from_proto (.exp_z q
      (parameterized_value_to_proto (ExpZGate.init h).half_turns)) = _
    rw [from_proto, param_roundtrip]
    simp only [expZ_init_idem]
  · show from_proto (.exp_11 q1 q2
      (parameterized_value_to_proto (Exp11Gate.init h).half_turns)) = _
    rw [from_proto, param_roundtrip]
    simp only [exp11_init_idem]
  · rfl

end XmonGates
